import Mathlib

/-!
Verification development for the `deploy-test` repository.

The HTTP service is `index.js`: an Express application with a static-file
middleware (`express.static('public')`), a JSON body-parsing middleware
(`express.json()`), four routes (`GET /`, `GET /api/info`,
`GET /api/greet/:name`, `POST /api/echo`) and a final 404 fallback.

The embedding below models:
  * JSON values (`Json`) as a tagged tree; number values keep their source
    lexeme, since nothing in the service inspects numeric values;
  * `JSON.parse` as a fuel-indexed total parser over the JSON grammar
    (`jsonParseText`);
  * the `express.json()` middleware (`parseJsonBody`): a request whose
    Content-Type does not match `application/json` is skipped and the body
    is left as the empty object; a zero-length body is special-cased to the
    empty object; otherwise strict mode requires the first non-whitespace
    character to be `\x7b` or `[` before `JSON.parse` runs, and any failure
    is a 400-class error (the size limit and charset handling of the real
    middleware are not modelled);
  * `Date.prototype.toISOString` (`toISOString`) on non-negative
    milliseconds since the Unix epoch;
  * the route handlers and the middleware-ordered dispatch (`handle`).
-/

/-- A JSON value. Numbers keep their source lexeme; object fields keep
their source order, duplicates included. -/
inductive Json where
  | null : Json
  | bool : Bool → Json
  | num : String → Json
  | str : String → Json
  | arr : List Json → Json
  | obj : List (String × Json) → Json

/-- HTTP methods used by the service and its middleware. -/
inductive Method where
  | GET | HEAD | POST | PUT | DELETE
deriving DecidableEq

/-- Drop leading JSON whitespace (space, tab, line feed, carriage return). -/
def skipWs : List Char → List Char
  | [] => []
  | c :: rest =>
    if c = ' ' ∨ c = '\t' ∨ c = '\n' ∨ c = '\r' then skipWs rest else c :: rest

/-- Value of a hexadecimal digit, if the character is one. -/
def hexVal (c : Char) : Option Nat :=
  if '0' ≤ c ∧ c ≤ '9' then some (c.toNat - 48)
  else if 'a' ≤ c ∧ c ≤ 'f' then some (c.toNat - 87)
  else if 'A' ≤ c ∧ c ≤ 'F' then some (c.toNat - 55)
  else none

/-- Single-character JSON string escapes. -/
def escapeChar : Char → Option Char
  | '"' => some '"'
  | '\\' => some '\\'
  | '/' => some '/'
  | 'b' => some (Char.ofNat 8)
  | 'f' => some (Char.ofNat 12)
  | 'n' => some '\n'
  | 'r' => some '\r'
  | 't' => some '\t'
  | _ => none

/-- Parse the body of a JSON string after its opening quote, returning the
decoded characters and the input after the closing quote. -/
def parseStringBody : Nat → List Char → Option (List Char × List Char)
  | 0, _ => none
  | _, [] => none
  | fuel + 1, c :: rest =>
    if c = '"' then some ([], rest)
    else if c = '\\' then
      match rest with
      | 'u' :: a :: b :: d :: e :: rest2 =>
        match hexVal a, hexVal b, hexVal d, hexVal e with
        | some ha, some hb, some hd, some he =>
          match parseStringBody fuel rest2 with
          | some (s, r) =>
            some (Char.ofNat (((ha * 16 + hb) * 16 + hd) * 16 + he) :: s, r)
          | none => none
        | _, _, _, _ => none
      | e :: rest2 =>
        match escapeChar e with
        | some ec =>
          match parseStringBody fuel rest2 with
          | some (s, r) => some (ec :: s, r)
          | none => none
        | none => none
      | [] => none
    else if c.toNat < 32 then none
    else
      match parseStringBody fuel rest with
      | some (s, r) => some (c :: s, r)
      | none => none

/-- Split off a maximal run of decimal digits. -/
def digitSpan (cs : List Char) : List Char × List Char :=
  cs.span (fun c => c.isDigit)

/-- Parse an optional JSON fraction part. -/
def parseFrac : List Char → Option (List Char × List Char)
  | '.' :: rest =>
    let (ds, r) := digitSpan rest
    if ds.isEmpty then none else some ('.' :: ds, r)
  | cs => some ([], cs)

/-- Parse an optional JSON exponent part. -/
def parseExp (cs : List Char) : Option (List Char × List Char) :=
  match cs with
  | c :: rest =>
    if c = 'e' ∨ c = 'E' then
      let (sgn, rest2) : List Char × List Char :=
        match rest with
        | '+' :: r => (['+'], r)
        | '-' :: r => (['-'], r)
        | _ => ([], rest)
      let (ds, r) := digitSpan rest2
      if ds.isEmpty then none else some (c :: (sgn ++ ds), r)
    else some ([], cs)
  | [] => some ([], [])

/-- Parse a JSON number, returning its lexeme. -/
def parseNumber (cs : List Char) : Option (String × List Char) :=
  let (sign, cs1) : List Char × List Char :=
    match cs with
    | '-' :: rest => (['-'], rest)
    | _ => ([], cs)
  match cs1 with
  | [] => none
  | c :: _ =>
    if c.isDigit then
      let (ip, cs2) := digitSpan cs1
      if 1 < ip.length ∧ ip.head? = some '0' then none
      else
        match parseFrac cs2 with
        | none => none
        | some (fp, cs3) =>
          match parseExp cs3 with
          | none => none
          | some (ep, cs4) => some (String.mk (sign ++ ip ++ fp ++ ep), cs4)
    else none

mutual

/-- Parse one JSON value, skipping leading whitespace. -/
def parseValue : Nat → List Char → Option (Json × List Char)
  | 0, _ => none
  | fuel + 1, cs =>
    match skipWs cs with
    | 'n' :: 'u' :: 'l' :: 'l' :: rest => some (Json.null, rest)
    | 't' :: 'r' :: 'u' :: 'e' :: rest => some (Json.bool true, rest)
    | 'f' :: 'a' :: 'l' :: 's' :: 'e' :: rest => some (Json.bool false, rest)
    | '"' :: rest =>
      match parseStringBody (rest.length + 1) rest with
      | some (s, r) => some (Json.str (String.mk s), r)
      | none => none
    | '[' :: rest => parseArrayRest fuel rest
    | '{' :: rest => parseObjectRest fuel rest
    | c :: rest =>
      if c = '-' ∨ c.isDigit then
        match parseNumber (c :: rest) with
        | some (lx, r) => some (Json.num lx, r)
        | none => none
      else none
    | [] => none

/-- Parse the remainder of a JSON array after its opening bracket. -/
def parseArrayRest : Nat → List Char → Option (Json × List Char)
  | 0, _ => none
  | fuel + 1, cs =>
    match skipWs cs with
    | ']' :: rest => some (Json.arr [], rest)
    | _ =>
      match parseValue fuel cs with
      | some (v, r) => parseArrayTail fuel [v] r
      | none => none

/-- Parse array elements after the first, accumulating in order. -/
def parseArrayTail : Nat → List Json → List Char → Option (Json × List Char)
  | 0, _, _ => none
  | fuel + 1, acc, cs =>
    match skipWs cs with
    | ']' :: rest => some (Json.arr acc, rest)
    | ',' :: rest =>
      match parseValue fuel rest with
      | some (v, r) => parseArrayTail fuel (acc ++ [v]) r
      | none => none
    | _ => none

/-- Parse the remainder of a JSON object after its opening brace. -/
def parseObjectRest : Nat → List Char → Option (Json × List Char)
  | 0, _ => none
  | fuel + 1, cs =>
    match skipWs cs with
    | '}' :: rest => some (Json.obj [], rest)
    | _ => parseObjectMember fuel [] cs

/-- Parse one `"key": value` member and continue with the object tail. -/
def parseObjectMember : Nat → List (String × Json) → List Char →
    Option (Json × List Char)
  | 0, _, _ => none
  | fuel + 1, acc, cs =>
    match skipWs cs with
    | '"' :: rest =>
      match parseStringBody (rest.length + 1) rest with
      | some (k, r1) =>
        match skipWs r1 with
        | ':' :: r2 =>
          match parseValue fuel r2 with
          | some (v, r3) => parseObjectTail fuel (acc ++ [(String.mk k, v)]) r3
          | none => none
        | _ => none
      | none => none
    | _ => none

/-- After one object member: close the object or expect a comma. -/
def parseObjectTail : Nat → List (String × Json) → List Char →
    Option (Json × List Char)
  | 0, _, _ => none
  | fuel + 1, acc, cs =>
    match skipWs cs with
    | '}' :: rest => some (Json.obj acc, rest)
    | ',' :: rest => parseObjectMember fuel acc rest
    | _ => none

end

/-- The `JSON.parse` of a whole text: one value with only trailing
whitespace allowed. -/
def jsonParseText (s : String) : Option Json :=
  match parseValue (2 * s.length + 2) s.data with
  | some (v, rest) => if (skipWs rest).isEmpty then some v else none
  | none => none

/-- Left-pad the decimal representation of `n` with zeroes to width `w`. -/
def padNum (w : Nat) (n : Nat) : String :=
  let s := toString n
  String.mk (List.replicate (w - s.length) '0') ++ s

/-- Gregorian calendar date for a day count since 1970-01-01
(Howard Hinnant's `civil_from_days`, specialised to non-negative days). -/
def civilFromDays (z : Nat) : Nat × Nat × Nat :=
  let zz := z + 719468
  let era := zz / 146097
  let doe := zz % 146097
  let yoe := (doe - doe / 1460 + doe / 36524 - doe / 146096) / 365
  let y := yoe + era * 400
  let doy := doe - (365 * yoe + yoe / 4 - yoe / 100)
  let mp := (5 * doy + 2) / 153
  let d := doy - (153 * mp + 2) / 5 + 1
  let m := if mp < 10 then mp + 3 else mp - 9
  (if m ≤ 2 then y + 1 else y, m, d)

/-- `Date.prototype.toISOString` for non-negative milliseconds since the
Unix epoch: `YYYY-MM-DDTHH:mm:ss.sssZ`. -/
def toISOString (ms : Nat) : String :=
  let days := ms / 86400000
  let rem := ms % 86400000
  let ymd := civilFromDays days
  padNum 4 ymd.1 ++ "-" ++ padNum 2 ymd.2.1 ++ "-" ++ padNum 2 ymd.2.2 ++
    "T" ++ padNum 2 (rem / 3600000) ++ ":" ++ padNum 2 (rem % 3600000 / 60000) ++
    ":" ++ padNum 2 (rem % 60000 / 1000) ++ "." ++ padNum 3 (rem % 1000) ++ "Z"

/-- Coercion of a JavaScript string-or-default (`s || dflt`): the empty
string is falsy, so it falls back to the default. -/
def jsOrDefault (v : Option String) (dflt : String) : String :=
  match v with
  | none => dflt
  | some s => if s = "" then dflt else s

/-- `const PORT = process.env.PORT || 3000` (index.js line 5): the listening
port is the `PORT` variable when set and non-empty, else the number 3000. -/
def PORT (portEnv : Option String) : String ⊕ Nat :=
  match portEnv with
  | none => Sum.inr 3000
  | some s => if s = "" then Sum.inr 3000 else Sum.inl s

/-- `process.env.NODE_ENV || 'development'` (index.js lines 23 and 50). -/
def environmentOf (nodeEnv : Option String) : String :=
  jsOrDefault nodeEnv "development"

/-- An HTTP request as the service sees it: method, URL-decoded path
segments, whether the Content-Type matches `application/json`, and the raw
body text (empty when the request carries no body). -/
structure Request where
  method : Method
  segs : List String
  ctJson : Bool
  body : String

/-- A response body: a file from `public/`, a JSON document, or the
framework's default error page. -/
inductive ResBody where
  | file : String → ResBody
  | json : Json → ResBody
  | errorHtml : ResBody

/-- An HTTP response: status code and body. -/
structure Response where
  status : Nat
  body : ResBody

/-- The 404 fallback response (index.js lines 44-46):
`res.status(404).sendFile(public/404.html)`. -/
def notFoundResponse : Response := ⟨404, ResBody.file "404.html"⟩

/-- The framework's default error response for a body the JSON middleware
rejects: a 400-class status with an error page. -/
def badRequestResponse : Response := ⟨400, ResBody.errorHtml⟩

/-- `app.use(express.static('public'))` (index.js line 8): for GET and HEAD
requests, serve a file of the public directory at its relative path; the
bare root serves `index.html` (the default index option). -/
def staticMatch (publicFiles : List String) (m : Method) (segs : List String) :
    Option String :=
  if m = Method.GET ∨ m = Method.HEAD then
    let key := if segs.isEmpty then "index.html"
               else String.intercalate "/" segs
    if publicFiles.contains key then some key else none
  else none

/-- `app.use(express.json())` (index.js line 11). A request whose
Content-Type is not JSON is skipped, leaving `req.body = \x7b\x7d`; a
zero-length body is special-cased to the empty object; otherwise strict
mode requires the first non-whitespace character to be `\x7b` or `[`, and
the text must satisfy `JSON.parse`; any failure is a 400-class error. -/
def parseJsonBody (ctJson : Bool) (body : String) : Except Unit Json :=
  if ctJson = false then Except.ok (Json.obj [])
  else if body.length = 0 then Except.ok (Json.obj [])
  else
    match (skipWs body.data).head? with
    | none => Except.error ()
    | some c =>
      if c = '{' ∨ c = '[' then
        match jsonParseText body with
        | some v => Except.ok v
        | none => Except.error ()
      else Except.error ()

/-- The `GET /api/info` handler body (index.js lines 18-26). -/
def infoJson (nodeEnv : Option String) (nodeVersion : String) (now : Nat) :
    Json :=
  Json.obj [("app", Json.str "Deploy Test Application"),
            ("version", Json.str "1.0.0"),
            ("timestamp", Json.str (toISOString now)),
            ("environment", Json.str (environmentOf nodeEnv)),
            ("node_version", Json.str nodeVersion)]

/-- The greeting template of `GET /api/greet/:name` (index.js line 31). -/
def greetMessage (name : String) : String :=
  "Hello, " ++ name ++ "! Welcome to Azure App Service."

/-- The `GET /api/greet/:name` handler body (index.js lines 28-34). -/
def greetJson (name : String) (now : Nat) : Json :=
  Json.obj [("message", Json.str (greetMessage name)),
            ("timestamp", Json.str (toISOString now))]

/-- The `POST /api/echo` handler body (index.js lines 36-41):
`received` is the parsed request body, returned verbatim. -/
def echoJson (body : Json) (now : Nat) : Json :=
  Json.obj [("received", body), ("timestamp", Json.str (toISOString now))]

/-- The four registered routes, in registration order (index.js lines
14-41). `none` means no route matches and the request falls through. A
`:name` parameter only matches a non-empty path segment. Since none of the
routes registers a HEAD handler, the Express router delegates HEAD
requests to the GET routes, so each GET route appears for both methods;
the transport-level suppression of a HEAD response's body is not
modelled. -/
def route (nodeEnv : Option String) (nodeVersion : String) (now : Nat)
    (parsed : Json) (m : Method) (segs : List String) : Option Response :=
  match m, segs with
  | Method.GET, [] => some ⟨200, ResBody.file "index.html"⟩
  | Method.HEAD, [] => some ⟨200, ResBody.file "index.html"⟩
  | Method.GET, ["api", "info"] =>
      some ⟨200, ResBody.json (infoJson nodeEnv nodeVersion now)⟩
  | Method.HEAD, ["api", "info"] =>
      some ⟨200, ResBody.json (infoJson nodeEnv nodeVersion now)⟩
  | Method.GET, ["api", "greet", name] =>
      if name = "" then none
      else some ⟨200, ResBody.json (greetJson name now)⟩
  | Method.HEAD, ["api", "greet", name] =>
      if name = "" then none
      else some ⟨200, ResBody.json (greetJson name now)⟩
  | Method.POST, ["api", "echo"] =>
      some ⟨200, ResBody.json (echoJson parsed now)⟩
  | _, _ => none

/-- The whole request pipeline of index.js, in middleware order: the static
middleware (line 8), then the JSON body parser (line 11) whose failure ends
the request with the framework's 400-class error response, then the routes
(lines 14-41), then the 404 fallback (lines 44-46). -/
def handle (publicFiles : List String) (nodeEnv : Option String)
    (nodeVersion : String) (now : Nat) (req : Request) : Response :=
  match staticMatch publicFiles req.method req.segs with
  | some f => ⟨200, ResBody.file f⟩
  | none =>
    match parseJsonBody req.ctJson req.body with
    | Except.error _ => badRequestResponse
    | Except.ok parsed =>
      (route nodeEnv nodeVersion now parsed req.method req.segs).getD
        notFoundResponse

/-- Field lookup in an association list, first occurrence. -/
def lookupKey : List (String × Json) → String → Option Json
  | [], _ => none
  | (k, v) :: rest, key => if k = key then some v else lookupKey rest key

/-- Field access on a JSON object. -/
def getField (j : Json) (key : String) : Option Json :=
  match j with
  | Json.obj fields => lookupKey fields key
  | _ => none

/-- The field names of a JSON object, in order. -/
def objKeys : Json → List String
  | Json.obj fields => fields.map (fun p => p.fst)
  | _ => []

/-- Remove the `timestamp` field of a JSON object, for comparing responses
up to their clock reading. -/
def stripTimestamp : Json → Json
  | Json.obj fields =>
      Json.obj (fields.filter (fun p => !(p.fst == "timestamp")))
  | j => j

/-- Remove the `timestamp` field of a JSON response body. -/
def stripResponse : Response → Response
  | ⟨s, ResBody.json j⟩ => ⟨s, ResBody.json (stripTimestamp j)⟩
  | r => r

/-- The files of the `public` directory named by the repository. -/
def publicDir : List String :=
  ["index.html", "about.html", "404.html", "app.js", "styles.css"]

/-- A bodyless GET request to the given path segments. -/
def getReq (segs : List String) : Request :=
  ⟨Method.GET, segs, false, ""⟩

/-- When the static middleware misses, the pipeline is the JSON middleware
followed by the routes and the 404 fallback. -/
theorem handle_eq_of_static_none (pf : List String) (e : Option String)
    (v : String) (t : Nat) (req : Request)
    (hs : staticMatch pf req.method req.segs = none) :
    handle pf e v t req =
      match parseJsonBody req.ctJson req.body with
      | Except.error _ => badRequestResponse
      | Except.ok parsed =>
          (route e v t parsed req.method req.segs).getD notFoundResponse := by
  unfold handle
  rw [hs]

/-- When the static middleware hits, the file is served with status 200 and
nothing further runs. -/
theorem handle_eq_of_static_some (pf : List String) (e : Option String)
    (v : String) (t : Nat) (req : Request) (f : String)
    (hs : staticMatch pf req.method req.segs = some f) :
    handle pf e v t req = ⟨200, ResBody.file f⟩ := by
  unfold handle
  rw [hs]

/-- Every response a registered route produces has status 200. -/
theorem route_status_200 (e : Option String) (v : String) (t : Nat)
    (p : Json) (m : Method) (segs : List String) (r : Response)
    (h : route e v t p m segs = some r) : r.status = 200 := by
  unfold route at h
  split at h <;> try split at h
  all_goals simp_all
  all_goals exact (congrArg Response.status h.symm)

/-- C9: the listening port comes from the `PORT` environment variable, and
when that variable is unset the service listens on port 3000 (index.js
lines 5 and 48). -/
theorem c9_listen_port :
    PORT none = Sum.inr 3000 ∧
    ∀ s : String, s ≠ "" → PORT (some s) = Sum.inl s := by
  refine ⟨rfl, ?_⟩
  intro s hs
  simp [PORT, hs]

/-- Witness for C9 at the concrete value `8080`. -/
theorem c9_listen_port_witness :
    ("8080" : String) ≠ "" ∧ PORT (some "8080") = Sum.inl "8080" :=
  ⟨by decide, c9_listen_port.2 "8080" (by decide)⟩

/-- C7 counterexample: with `NODE_ENV` set to the empty string, the
`environment` field of `/api/info` is `development`, not the empty string
verbatim — the JavaScript `||` treats the empty string as falsy. -/
theorem c7_empty_env_not_verbatim :
    getField (infoJson (some "") "v20.11.0" 0) "environment" =
      some (Json.str "development") ∧
    ("development" : String) ≠ "" :=
  ⟨rfl, by decide⟩

/-- C7 as amended: the `environment` field is `development` when `NODE_ENV`
is unset or empty, and equals the variable's value verbatim for every
non-empty value. -/
theorem c7_environment_field :
    (∀ (nv : String) (t : Nat),
      getField (infoJson none nv t) "environment" =
        some (Json.str "development")) ∧
    (∀ (nv : String) (t : Nat),
      getField (infoJson (some "") nv t) "environment" =
        some (Json.str "development")) ∧
    (∀ (s nv : String) (t : Nat), s ≠ "" →
      getField (infoJson (some s) nv t) "environment" =
        some (Json.str s)) := by
  refine ⟨fun nv t => rfl, fun nv t => rfl, ?_⟩
  intro s nv t hs
  show lookupKey _ "environment" = _
  simp [lookupKey, environmentOf, jsOrDefault, hs]

/-- Witness for C7 at `NODE_ENV=production`. -/
theorem c7_environment_field_witness :
    ("production" : String) ≠ "" ∧
    getField (infoJson (some "production") "v20.11.0" 0) "environment" =
      some (Json.str "production") :=
  ⟨by decide, c7_environment_field.2.2 "production" "v20.11.0" 0 (by decide)⟩

/-- C3 counterexample: the greeting text of index.js line 31 is
`Hello, name! Welcome to Azure App Service.`, so for `name = World` the
message differs from the claimed `Hello, World! Welcome.`. -/
theorem c3_message_text_differs :
    greetMessage "World" = "Hello, World! Welcome to Azure App Service." ∧
    greetMessage "World" ≠ "Hello, World! Welcome." :=
  ⟨rfl, by decide⟩

/-- C3 as amended: for every non-empty decoded name not shadowed by a
static file, `GET /api/greet/name` returns a JSON object whose `message`
field is `Hello, name! Welcome to Azure App Service.` together with a
`timestamp` field. -/
theorem c3_greet_response (pf : List String) (env : Option String)
    (nv name : String) (t : Nat)
    (hs : staticMatch pf Method.GET ["api", "greet", name] = none)
    (hn : name ≠ "") :
    handle pf env nv t ⟨Method.GET, ["api", "greet", name], false, ""⟩ =
      ⟨200, ResBody.json (Json.obj
        [("message",
          Json.str ("Hello, " ++ name ++ "! Welcome to Azure App Service.")),
         ("timestamp", Json.str (toISOString t))])⟩ := by
  rw [handle_eq_of_static_none pf env nv t _ hs]
  show (route env nv t (Json.obj []) Method.GET ["api", "greet", name]).getD
    notFoundResponse = _
  unfold route
  simp only [if_neg hn]
  rfl

/-- Witness for C3 at `name = World`. -/
theorem c3_greet_response_witness :
    staticMatch publicDir Method.GET ["api", "greet", "World"] = none ∧
    ("World" : String) ≠ "" ∧
    handle publicDir none "v20.11.0" 0
        ⟨Method.GET, ["api", "greet", "World"], false, ""⟩ =
      ⟨200, ResBody.json (Json.obj
        [("message",
          Json.str ("Hello, " ++ "World" ++ "! Welcome to Azure App Service.")),
         ("timestamp", Json.str (toISOString 0))])⟩ :=
  ⟨rfl, by decide,
    c3_greet_response publicDir none "v20.11.0" "World" 0 rfl (by decide)⟩

/-- C6: the message returned by `GET /api/greet/name` contains the decoded
name verbatim as a substring, for every name (index.js line 31). -/
theorem c6_greet_contains_name (pf : List String) (env : Option String)
    (nv name : String) (t : Nat)
    (hs : staticMatch pf Method.GET ["api", "greet", name] = none)
    (hn : name ≠ "") :
    handle pf env nv t ⟨Method.GET, ["api", "greet", name], false, ""⟩ =
      ⟨200, ResBody.json (greetJson name t)⟩ ∧
    ∃ pre suf : String, greetMessage name = pre ++ name ++ suf := by
  constructor
  · rw [handle_eq_of_static_none pf env nv t _ hs]
    show (route env nv t (Json.obj []) Method.GET ["api", "greet", name]).getD
      notFoundResponse = _
    unfold route
    simp only [if_neg hn]
    rfl
  · exact ⟨"Hello, ", "! Welcome to Azure App Service.", rfl⟩

/-- Witness for C6 at `name = Azure`. -/
theorem c6_greet_contains_name_witness :
    staticMatch publicDir Method.GET ["api", "greet", "Azure"] = none ∧
    ("Azure" : String) ≠ "" ∧
    (handle publicDir none "v20.11.0" 0
        ⟨Method.GET, ["api", "greet", "Azure"], false, ""⟩ =
      ⟨200, ResBody.json (greetJson "Azure" 0)⟩ ∧
    ∃ pre suf : String, greetMessage "Azure" = pre ++ "Azure" ++ suf) :=
  ⟨rfl, by decide,
    c6_greet_contains_name publicDir none "v20.11.0" "Azure" 0 rfl (by decide)⟩

/-- C2 counterexample: the fifth field of the `/api/info` response is named
`node_version` (index.js line 24), so the field set is not
`app, version, timestamp, environment, runtime_version`. -/
theorem c2_no_runtime_version_field :
    objKeys (infoJson (some "production") "v20.11.0" 0) =
      ["app", "version", "timestamp", "environment", "node_version"] ∧
    "runtime_version" ∉ objKeys (infoJson (some "production") "v20.11.0" 0) :=
  ⟨rfl, by decide⟩

/-- C2 as amended: every `GET /api/info` response not shadowed by a static
file is a JSON object whose field set is exactly
`app, version, timestamp, environment, node_version`, and whose `timestamp`
field is the current time rendered by `Date.prototype.toISOString`
(ISO-8601 UTC). -/
theorem c2_info_fields (pf : List String) (env : Option String)
    (nv : String) (t : Nat)
    (hs : staticMatch pf Method.GET ["api", "info"] = none) :
    handle pf env nv t ⟨Method.GET, ["api", "info"], false, ""⟩ =
      ⟨200, ResBody.json (infoJson env nv t)⟩ ∧
    objKeys (infoJson env nv t) =
      ["app", "version", "timestamp", "environment", "node_version"] ∧
    getField (infoJson env nv t) "timestamp" =
      some (Json.str (toISOString t)) := by
  refine ⟨?_, rfl, rfl⟩
  rw [handle_eq_of_static_none pf env nv t _ hs]
  rfl

/-- Witness for C2 with the repository's public directory. -/
theorem c2_info_fields_witness :
    staticMatch publicDir Method.GET ["api", "info"] = none ∧
    (handle publicDir (some "production") "v20.11.0" 1728736496789
        ⟨Method.GET, ["api", "info"], false, ""⟩ =
      ⟨200, ResBody.json (infoJson (some "production") "v20.11.0"
        1728736496789)⟩ ∧
    objKeys (infoJson (some "production") "v20.11.0" 1728736496789) =
      ["app", "version", "timestamp", "environment", "node_version"] ∧
    getField (infoJson (some "production") "v20.11.0" 1728736496789)
      "timestamp" = some (Json.str (toISOString 1728736496789))) :=
  ⟨rfl, c2_info_fields publicDir (some "production") "v20.11.0"
    1728736496789 rfl⟩

/-- C1 counterexample: `POST /api/echo` with a JSON Content-Type and an
empty body is not rejected — the body-parsing middleware special-cases a
zero-length body to the empty object, so the echo handler runs and returns
status 200 with `received` equal to the empty object. -/
theorem c1_empty_body_is_echoed :
    (handle publicDir none "v20.11.0" 0
      ⟨Method.POST, ["api", "echo"], true, ""⟩).status = 200 ∧
    handle publicDir none "v20.11.0" 0
        ⟨Method.POST, ["api", "echo"], true, ""⟩ =
      ⟨200, ResBody.json (echoJson (Json.obj []) 0)⟩ :=
  ⟨rfl, rfl⟩

/-- C1 as amended: `POST /api/echo` whose body has a JSON Content-Type and
is rejected by the JSON middleware (non-empty and not valid strict JSON)
gets the framework's 400-class error response — the echo handler result is
not produced and a response is still returned; an empty body is instead
parsed as the empty object and echoed with status 200. -/
theorem c1_invalid_json_400 (pf : List String) (env : Option String)
    (nv : String) (t : Nat) (b : String)
    (hp : parseJsonBody true b = Except.error ()) :
    handle pf env nv t ⟨Method.POST, ["api", "echo"], true, b⟩ =
      badRequestResponse := by
  rw [handle_eq_of_static_none pf env nv t
    ⟨Method.POST, ["api", "echo"], true, b⟩ rfl, hp]

/-- Witness for C1 at the invalid body `oops`. -/
theorem c1_invalid_json_400_witness :
    parseJsonBody true "oops" = Except.error () ∧
    handle publicDir none "v20.11.0" 0
        ⟨Method.POST, ["api", "echo"], true, "oops"⟩ =
      badRequestResponse :=
  ⟨rfl, c1_invalid_json_400 publicDir none "v20.11.0" 0 "oops" rfl⟩

/-- C4 counterexample: the body `"hi"` is a valid JSON text (a string), but
strict mode of the JSON middleware only accepts a top-level object or
array, so the request is rejected with the 400-class error response and no
`received` field is produced. -/
theorem c4_primitive_body_rejected :
    jsonParseText "\"hi\"" = some (Json.str "hi") ∧
    handle publicDir none "v20.11.0" 0
        ⟨Method.POST, ["api", "echo"], true, "\"hi\""⟩ =
      badRequestResponse :=
  ⟨rfl, rfl⟩

/-- C4 as amended: for every body the JSON middleware accepts (empty, or a
valid JSON text whose first non-whitespace character opens an object or an
array), the `received` field of the `POST /api/echo` response deep-equals
the parsed body value; top-level primitive JSON texts are rejected by
strict mode. -/
theorem c4_echo_received (pf : List String) (env : Option String)
    (nv : String) (t : Nat) (b : String) (j : Json)
    (hp : parseJsonBody true b = Except.ok j) :
    handle pf env nv t ⟨Method.POST, ["api", "echo"], true, b⟩ =
      ⟨200, ResBody.json (Json.obj
        [("received", j), ("timestamp", Json.str (toISOString t))])⟩ := by
  rw [handle_eq_of_static_none pf env nv t
    ⟨Method.POST, ["api", "echo"], true, b⟩ rfl, hp]
  rfl

/-- Witness for C4 at the body of the specification's example. -/
theorem c4_echo_received_witness :
    parseJsonBody true "\x7b\"message\":\"hi\"\x7d" =
      Except.ok (Json.obj [("message", Json.str "hi")]) ∧
    handle publicDir none "v20.11.0" 0
        ⟨Method.POST, ["api", "echo"], true, "\x7b\"message\":\"hi\"\x7d"⟩ =
      ⟨200, ResBody.json (Json.obj
        [("received", Json.obj [("message", Json.str "hi")]),
         ("timestamp", Json.str (toISOString 0))])⟩ :=
  ⟨rfl, c4_echo_received publicDir none "v20.11.0" 0
    "\x7b\"message\":\"hi\"\x7d" (Json.obj [("message", Json.str "hi")]) rfl⟩

/-- C5 counterexample: a `POST /does-not-exist` request whose body carries
a JSON Content-Type but is not valid JSON matches no route and no static
file, yet receives the 400-class middleware error, not the 404 fallback —
the body parser runs before route matching ends the request. -/
theorem c5_unmatched_path_bad_body_400 :
    staticMatch publicDir Method.POST ["does-not-exist"] = none ∧
    route none "v20.11.0" 0 (Json.obj []) Method.POST ["does-not-exist"] =
      none ∧
    handle publicDir none "v20.11.0" 0
        ⟨Method.POST, ["does-not-exist"], true, "\x7b"⟩ =
      badRequestResponse ∧
    (handle publicDir none "v20.11.0" 0
        ⟨Method.POST, ["does-not-exist"], true, "\x7b"⟩).status ≠ 404 :=
  ⟨rfl, rfl, rfl, by decide⟩

/-- C5 as amended: every request that clears the body-parsing middleware
and matches no route and no static file receives the fixed 404 document
from the final fallback; the fallback never shadows a route — a request
matching a registered route gets that route's status-200 response. A
request the JSON middleware rejects instead receives the 400-class error
before route matching. -/
theorem c5_fallback_404 (pf : List String) (env : Option String)
    (nv : String) (t : Nat) (req : Request) (parsed : Json)
    (hs : staticMatch pf req.method req.segs = none)
    (hp : parseJsonBody req.ctJson req.body = Except.ok parsed) :
    (route env nv t parsed req.method req.segs = none →
      handle pf env nv t req = notFoundResponse) ∧
    (∀ r, route env nv t parsed req.method req.segs = some r →
      handle pf env nv t req = r ∧ r.status = 200) := by
  have hh : handle pf env nv t req =
      (route env nv t parsed req.method req.segs).getD notFoundResponse := by
    rw [handle_eq_of_static_none pf env nv t req hs, hp]
  constructor
  · intro hr
    rw [hh, hr]
    rfl
  · intro r hr
    rw [hh, hr]
    exact ⟨rfl, route_status_200 env nv t parsed req.method req.segs r hr⟩

/-- Witness for C5 at `GET /does-not-exist` with no body. -/
theorem c5_fallback_404_witness :
    staticMatch publicDir Method.GET ["does-not-exist"] = none ∧
    parseJsonBody false "" = Except.ok (Json.obj []) ∧
    route none "v20.11.0" 0 (Json.obj []) Method.GET ["does-not-exist"] =
      none ∧
    handle publicDir none "v20.11.0" 0 (getReq ["does-not-exist"]) =
      notFoundResponse :=
  ⟨rfl, rfl, rfl,
    (c5_fallback_404 publicDir none "v20.11.0" 0 (getReq ["does-not-exist"])
      (Json.obj []) rfl rfl).1 rfl⟩

/-- C10 counterexample: `POST /api/info` — a defined path with a
non-matching method — with a JSON Content-Type and a malformed body
receives the 400-class middleware error, not the 404 fallback document. -/
theorem c10_wrong_method_bad_body_400 :
    staticMatch publicDir Method.POST ["api", "info"] = none ∧
    handle publicDir none "v20.11.0" 0
        ⟨Method.POST, ["api", "info"], true, "nope"⟩ = badRequestResponse ∧
    (handle publicDir none "v20.11.0" 0
        ⟨Method.POST, ["api", "info"], true, "nope"⟩).status ≠ 404 :=
  ⟨rfl, rfl, by decide⟩

/-- C10 as amended: a request to a defined API path with a non-matching
method whose body clears the JSON middleware (here: no JSON body at all)
matches no route and no static file, so it falls through to the fallback
and receives the fixed 404 document — `POST /api/info`, `GET /api/echo`
and `DELETE /api/greet/name` alike; a request whose body the middleware
rejects receives the 400-class error instead. -/
theorem c10_wrong_method_404 (pf : List String) (env : Option String)
    (nv name : String) (t : Nat)
    (he : staticMatch pf Method.GET ["api", "echo"] = none) :
    handle pf env nv t ⟨Method.POST, ["api", "info"], false, ""⟩ =
      notFoundResponse ∧
    handle pf env nv t ⟨Method.GET, ["api", "echo"], false, ""⟩ =
      notFoundResponse ∧
    handle pf env nv t ⟨Method.DELETE, ["api", "greet", name], false, ""⟩ =
      notFoundResponse := by
  refine ⟨?_, ?_, ?_⟩
  · rw [handle_eq_of_static_none pf env nv t
      ⟨Method.POST, ["api", "info"], false, ""⟩ rfl]
    rfl
  · rw [handle_eq_of_static_none pf env nv t
      ⟨Method.GET, ["api", "echo"], false, ""⟩ he]
    rfl
  · rw [handle_eq_of_static_none pf env nv t
      ⟨Method.DELETE, ["api", "greet", name], false, ""⟩ rfl]
    rfl

/-- Witness for C10 with the repository's public directory. -/
theorem c10_wrong_method_404_witness :
    staticMatch publicDir Method.GET ["api", "echo"] = none ∧
    (handle publicDir none "v20.11.0" 0
        ⟨Method.POST, ["api", "info"], false, ""⟩ = notFoundResponse ∧
    handle publicDir none "v20.11.0" 0
        ⟨Method.GET, ["api", "echo"], false, ""⟩ = notFoundResponse ∧
    handle publicDir none "v20.11.0" 0
        ⟨Method.DELETE, ["api", "greet", "World"], false, ""⟩ =
      notFoundResponse) :=
  ⟨rfl, c10_wrong_method_404 publicDir none "v20.11.0" "World" 0 rfl⟩

/-- The `/api/info` payload with its `timestamp` field removed does not
depend on the clock. -/
theorem stripTimestamp_infoJson (env : Option String) (nv : String) (t : Nat) :
    stripTimestamp (infoJson env nv t) =
      Json.obj [("app", Json.str "Deploy Test Application"),
                ("version", Json.str "1.0.0"),
                ("environment", Json.str (environmentOf env)),
                ("node_version", Json.str nv)] := by
  rfl

/-- The `/api/greet` payload with its `timestamp` field removed does not
depend on the clock. -/
theorem stripTimestamp_greetJson (name : String) (t : Nat) :
    stripTimestamp (greetJson name t) =
      Json.obj [("message", Json.str (greetMessage name))] := by
  rfl

/-- Evaluation of the pipeline on `GET /api/info` when no static file
shadows the path. -/
theorem handle_info_eq (pf : List String) (env : Option String) (nv : String)
    (t : Nat) (hst : staticMatch pf Method.GET ["api", "info"] = none) :
    handle pf env nv t (getReq ["api", "info"]) =
      ⟨200, ResBody.json (infoJson env nv t)⟩ := by
  rw [handle_eq_of_static_none pf env nv t _ hst]
  rfl

/-- Evaluation of the pipeline on `GET /api/greet/name` for a non-empty
name when no static file shadows the path. -/
theorem handle_greet_eq (pf : List String) (env : Option String)
    (nv name : String) (t : Nat)
    (hst : staticMatch pf Method.GET ["api", "greet", name] = none)
    (hn : name ≠ "") :
    handle pf env nv t (getReq ["api", "greet", name]) =
      ⟨200, ResBody.json (greetJson name t)⟩ := by
  rw [handle_eq_of_static_none pf env nv t _ hst]
  show (route env nv t (Json.obj []) Method.GET ["api", "greet", name]).getD
    notFoundResponse = _
  unfold route
  simp only [if_neg hn]
  rfl

/-- An empty `:name` segment matches no route and falls to the 404
fallback. -/
theorem handle_greet_empty (pf : List String) (env : Option String)
    (nv : String) (t : Nat)
    (hst : staticMatch pf Method.GET ["api", "greet", ""] = none) :
    handle pf env nv t (getReq ["api", "greet", ""]) = notFoundResponse := by
  rw [handle_eq_of_static_none pf env nv t _ hst]
  rfl

/-- C8: with a fixed configuration, repeating `GET /api/info` or
`GET /api/greet/name` at two different clock readings yields structurally
identical responses once the `timestamp` field is removed — the handlers
are deterministic in the request and configuration, with the clock as the
only varying input. -/
theorem c8_get_deterministic (pf : List String) (env : Option String)
    (nv : String) (t1 t2 : Nat) (name : String) :
    stripResponse (handle pf env nv t1 (getReq ["api", "info"])) =
      stripResponse (handle pf env nv t2 (getReq ["api", "info"])) ∧
    stripResponse (handle pf env nv t1 (getReq ["api", "greet", name])) =
      stripResponse (handle pf env nv t2 (getReq ["api", "greet", name])) := by
  constructor
  · cases hst : staticMatch pf Method.GET ["api", "info"] with
    | some f =>
      rw [handle_eq_of_static_some pf env nv t1 _ f hst,
          handle_eq_of_static_some pf env nv t2 _ f hst]
    | none =>
      rw [handle_info_eq pf env nv t1 hst, handle_info_eq pf env nv t2 hst]
      show (⟨200, ResBody.json (stripTimestamp (infoJson env nv t1))⟩ :
          Response) =
        ⟨200, ResBody.json (stripTimestamp (infoJson env nv t2))⟩
      rw [stripTimestamp_infoJson env nv t1, stripTimestamp_infoJson env nv t2]
  · cases hst : staticMatch pf Method.GET ["api", "greet", name] with
    | some f =>
      rw [handle_eq_of_static_some pf env nv t1 _ f hst,
          handle_eq_of_static_some pf env nv t2 _ f hst]
    | none =>
      by_cases hn : name = ""
      · subst hn
        rw [handle_greet_empty pf env nv t1 hst,
            handle_greet_empty pf env nv t2 hst]
      · rw [handle_greet_eq pf env nv name t1 hst hn,
            handle_greet_eq pf env nv name t2 hst hn]
        show (⟨200, ResBody.json (stripTimestamp (greetJson name t1))⟩ :
            Response) =
          ⟨200, ResBody.json (stripTimestamp (greetJson name t2))⟩
        rw [stripTimestamp_greetJson name t1, stripTimestamp_greetJson name t2]
